import Mathlib

/-!
Verification of the funcgpt repository: a shallow embedding of its prompt
serializer (`tokentools.py`), streaming event parser and answer extraction
(`gpt.py`), and function wrapper (`wrapper.py`), together with theorems
settling the specification's claims.

Python strings are modelled as `List Char`; the text operations the code
relies on (the two regexes in `gpt.py`, `textwrap.dedent`, `str.strip`,
`str.lower`, `in`) are translated explicitly. The two external
collaborators — the tiktoken encoder and the `json` module — are handled
as the spec directs: the encoder is an opaque parameter
(`encodeFn : List Char → List Nat`), while `json.loads` is modelled by an
executable JSON parser covering the value forms the wire protocol uses
(objects, arrays, strings with simple escapes, integers, booleans, null;
floats and \u escapes are rejected, which no claim exercises).
-/

namespace FuncGpt

/-- Character lists stand in for Python strings. -/
abbrev Chars := List Char

/-- The closed model enumeration `Literal["gpt-3.5-turbo", "gpt-4"]`. -/
inductive Model where
  | gpt35turbo
  | gpt4
deriving DecidableEq

/-- Message roles, `Literal["system", "user", "assistant"]` from `message.py`. -/
inductive Role where
  | system
  | user
  | assistant
deriving DecidableEq

/-- The text of a role, as it appears in serialized prompts. -/
def Role.text : Role → Chars
  | .system => "system".data
  | .user => "user".data
  | .assistant => "assistant".data

/-- The `Message` TypedDict from `message.py`: a role plus text content. -/
structure Message where
  role : Role
  content : Chars
deriving DecidableEq

/-- `MSG_SEP` table from `tokentools.py`. -/
def MSG_SEP : Model → Chars
  | .gpt35turbo => "\n".data
  | .gpt4 => "".data

/-- `IM_SEP` table from `tokentools.py`. -/
def IM_SEP : Model → Chars
  | .gpt35turbo => "\n".data
  | .gpt4 => "<|im_sep|>".data

/-- `IM_START` table from `tokentools.py`. -/
def IM_START : Model → Chars
  | .gpt35turbo => "<|im_start|>".data
  | .gpt4 => "<|im_start|>".data

/-- `IM_END` table from `tokentools.py`. -/
def IM_END : Model → Chars
  | .gpt35turbo => "<|im_end|>".data
  | .gpt4 => "<|im_end|>".data

/-- Python `sep.join(pieces)`: concatenate `pieces` with `sep` between
consecutive elements. -/
def joinSep (sep : Chars) : List Chars → Chars
  | [] => []
  | [x] => x
  | x :: y :: ys => x ++ sep ++ joinSep sep (y :: ys)

/-- One rendered message piece inside `serialize_to_gpt`:
`f"{imStart}{message['role']}{imSep}{message['content']}{imEnd}"`. -/
def renderMessage (model : Model) (m : Message) : Chars :=
  IM_START model ++ m.role.text ++ IM_SEP model ++ m.content ++ IM_END model

/-- The trailing open piece `f"{imStart}assistant{imSep}"` appended by
`serialize_to_gpt`. -/
def trailingPiece (model : Model) : Chars :=
  IM_START model ++ "assistant".data ++ IM_SEP model

/-- The text built by `serialize_to_gpt` in `tokentools.py` before it is
handed to the encoder: each message rendered, plus the trailing assistant
piece, joined with the model's message separator. -/
def serialize_to_gpt (messages : List Message) (model : Model) : Chars :=
  joinSep (MSG_SEP model) (messages.map (renderMessage model) ++ [trailingPiece model])

/-- `get_token_count` from `tokentools.py`, parameterized by the external
tiktoken encoder (`CL100K_IM_ENCODING.encode` with all special tokens
allowed), which the spec treats as an opaque collaborator. -/
def get_token_count (encodeFn : Chars → List Nat) (messages : List Message)
    (model : Model) : Nat :=
  (encodeFn (serialize_to_gpt messages model)).length

/-! Splitting a rendered prompt back into its parts, the reconstruction
the spec's round-trip property describes ("the rendered text, split on the
known markers, reconstructs the original role/content pairs"). -/

/-- Split `s` at the first occurrence of `sep`, returning the part before
and the part after it, or `none` when `sep` does not occur. -/
def splitFirst (sep : Chars) (s : Chars) : Option (Chars × Chars) :=
  if sep.isPrefixOf s then some ([], s.drop sep.length)
  else
    match s with
    | [] => none
    | c :: cs =>
      match splitFirst sep cs with
      | some (a, b) => some (c :: a, b)
      | none => none

/-- Remove the leading marker `pre` from `s`, failing when absent. -/
def dropStart (pre s : Chars) : Option Chars :=
  if pre.isPrefixOf s then some (s.drop pre.length) else none

/-- A word has no border when no proper nonempty suffix of it is also a
proper prefix; occurrences of such a word cannot straddle its own start. -/
def noBorder (sep : Chars) : Prop :=
  ∀ k, k < sep.length → 0 < k → ¬ (sep.drop k) <+: sep

lemma not_prefix_mid {sep a b : Chars} (hnb : noBorder sep)
    (hinf : ¬ sep <:+: a) (ha : a ≠ []) :
    ¬ sep <+: (a ++ (sep ++ b)) := by
  intro hpre
  rcases le_or_lt sep.length a.length with hle | hlt
  · apply hinf
    have h1 : sep = (a ++ (sep ++ b)).take sep.length := List.prefix_iff_eq_take.mp hpre
    rw [List.take_append_eq_append_take, Nat.sub_eq_zero_of_le hle, List.take_zero,
      List.append_nil] at h1
    exact (h1 ▸ List.take_prefix _ _).isInfix
  · have hk0 : 0 < a.length := List.length_pos.mpr ha
    have h1 : sep = (a ++ (sep ++ b)).take sep.length := List.prefix_iff_eq_take.mp hpre
    rw [List.take_append_eq_append_take, List.take_of_length_le (le_of_lt hlt)] at h1
    have hdrop : sep.drop a.length = ((sep ++ b).take (sep.length - a.length)) := by
      calc sep.drop a.length
          = (a ++ (sep ++ b).take (sep.length - a.length)).drop a.length := by rw [← h1]
        _ = (sep ++ b).take (sep.length - a.length) := List.drop_left _ _
    have hpref : sep.drop a.length <+: sep := by
      rw [hdrop, List.take_append_eq_append_take,
        Nat.sub_eq_zero_of_le (Nat.sub_le _ _), List.take_zero, List.append_nil]
      exact List.take_prefix _ _
    exact hnb a.length hlt hk0 hpref

lemma splitFirst_pos {sep s : Chars} (h : sep <+: s) :
    splitFirst sep s = some ([], s.drop sep.length) := by
  rw [splitFirst.eq_def, if_pos (List.isPrefixOf_iff_prefix.mpr h)]

lemma splitFirst_neg_cons {sep : Chars} {c : Char} {cs : Chars} (h : ¬ sep <+: (c :: cs)) :
    splitFirst sep (c :: cs) =
      match splitFirst sep cs with
      | some (a, b) => some (c :: a, b)
      | none => none := by
  rw [splitFirst.eq_def, if_neg (fun hb => h (List.isPrefixOf_iff_prefix.mp hb))]

lemma splitFirst_append {sep : Chars} (a : Chars) (b : Chars) (hnb : noBorder sep)
    (hinf : ¬ sep <:+: a) :
    splitFirst sep (a ++ (sep ++ b)) = some (a, b) := by
  induction a with
  | nil =>
    rw [List.nil_append, splitFirst_pos (List.prefix_append _ _), List.drop_left]
  | cons c cs ih =>
    have hnp : ¬ sep <+: ((c :: cs) ++ (sep ++ b)) :=
      not_prefix_mid hnb hinf (by simp)
    rw [List.cons_append] at hnp
    have hinf' : ¬ sep <:+: cs := fun h => hinf (List.infix_cons h)
    rw [List.cons_append, splitFirst_neg_cons hnp, ih hinf']

lemma dropStart_append (pre x : Chars) : dropStart pre (pre ++ x) = some x := by
  rw [dropStart, if_pos (List.isPrefixOf_iff_prefix.mpr (List.prefix_append _ _)),
    List.drop_left]

/-- Fueled worker that repeatedly peels one `<start><role><sep><content><end>`
message off a rendered prompt, stopping at the trailing assistant piece. -/
def parseMsgsGo (model : Model) : Nat → Chars → Option (List (Chars × Chars))
  | 0, _ => none
  | fuel+1, s =>
    if s = trailingPiece model then some []
    else
      (dropStart (IM_START model) s).bind fun s1 =>
      (splitFirst (IM_SEP model) s1).bind fun p =>
      (splitFirst (IM_END model) p.2).bind fun q =>
      (dropStart (MSG_SEP model) q.2).bind fun s4 =>
      (parseMsgsGo model fuel s4).map fun rest => (p.1, q.1) :: rest

/-- Split a rendered prompt on the model's markers, recovering the
role/content pairs it was built from. -/
def parseMessages (model : Model) (s : Chars) : Option (List (Chars × Chars)) :=
  parseMsgsGo model (s.length + 1) s

/-- The model's four markers, the "known markers" of the round-trip claim. -/
def marks (model : Model) : List Chars :=
  [IM_START model, IM_END model, IM_SEP model, MSG_SEP model]

/-- No nonempty marker of `model` occurs inside `s`. -/
def NoMarkIn (model : Model) (s : Chars) : Prop :=
  ∀ mk ∈ marks model, mk ≠ [] → ¬ mk <:+: s

instance decNoMarkIn (model : Model) (s : Chars) : Decidable (NoMarkIn model s) :=
  inferInstanceAs (Decidable (∀ mk ∈ marks model, mk ≠ [] → ¬ mk <:+: s))

lemma noBorder_IM_SEP (model : Model) : noBorder (IM_SEP model) := by
  unfold noBorder
  cases model <;> decide

lemma noBorder_IM_END (model : Model) : noBorder (IM_END model) := by
  unfold noBorder
  cases model <;> decide

lemma IM_SEP_ne_nil (model : Model) : IM_SEP model ≠ [] := by
  cases model <;> decide

lemma IM_END_ne_nil (model : Model) : IM_END model ≠ [] := by
  cases model <;> decide

lemma joinSep_cons_ne (sep x : Chars) (ys : List Chars) (h : ys ≠ []) :
    joinSep sep (x :: ys) = x ++ sep ++ joinSep sep ys := by
  cases ys with
  | nil => exact absurd rfl h
  | cons y ys => rfl

lemma serialize_nil (model : Model) :
    serialize_to_gpt [] model = trailingPiece model := rfl

lemma serialize_cons (model : Model) (m : Message) (ms : List Message) :
    serialize_to_gpt (m :: ms) model
      = renderMessage model m ++ (MSG_SEP model ++ serialize_to_gpt ms model) := by
  unfold serialize_to_gpt
  rw [List.map_cons, List.cons_append, joinSep_cons_ne _ _ _ (by simp), List.append_assoc]

lemma renderMessage_length_pos (model : Model) (m : Message) :
    0 < (renderMessage model m).length := by
  unfold renderMessage
  cases model <;> simp [IM_START]

lemma trailing_le_serialize (model : Model) (ms : List Message) :
    (trailingPiece model).length ≤ (serialize_to_gpt ms model).length := by
  induction ms with
  | nil => rw [serialize_nil]
  | cons m ms ih =>
    rw [serialize_cons]
    simp only [List.length_append]
    omega

lemma length_le_serialize (model : Model) (ms : List Message) :
    ms.length ≤ (serialize_to_gpt ms model).length := by
  induction ms with
  | nil => exact Nat.zero_le _
  | cons m ms ih =>
    rw [serialize_cons]
    simp only [List.length_cons, List.length_append]
    have := renderMessage_length_pos model m
    omega

lemma serialize_cons_ne_trailing (model : Model) (m : Message) (ms : List Message) :
    serialize_to_gpt (m :: ms) model ≠ trailingPiece model := by
  intro h
  have hl := congrArg List.length h
  rw [serialize_cons] at hl
  simp only [List.length_append] at hl
  have h1 := renderMessage_length_pos model m
  have h2 := trailing_le_serialize model ms
  have h3 : 0 < (IM_END model).length := by cases model <;> decide
  unfold renderMessage at hl h1
  simp only [List.length_append] at hl h1
  omega

lemma parseMsgsGo_serialize (model : Model) (ms : List Message) :
    ∀ fuel, ms.length < fuel →
    (∀ m ∈ ms, NoMarkIn model m.role.text ∧ NoMarkIn model m.content) →
    parseMsgsGo model fuel (serialize_to_gpt ms model)
      = some (ms.map fun m => (m.role.text, m.content)) := by
  induction ms with
  | nil =>
    intro fuel hf _
    match fuel, hf with
    | fuel+1, _ =>
      rw [serialize_nil, parseMsgsGo, if_pos rfl, List.map_nil]
  | cons m ms ih =>
    intro fuel hf hclean
    cases fuel with
    | zero => exact absurd hf (by omega)
    | succ fuel =>
      have hfuel : ms.length < fuel := by
        simp only [List.length_cons] at hf
        omega
      have hRole : ¬ IM_SEP model <:+: m.role.text :=
        (hclean m (by simp)).1 (IM_SEP model) (by simp [marks]) (IM_SEP_ne_nil model)
      have hContent : ¬ IM_END model <:+: m.content :=
        (hclean m (by simp)).2 (IM_END model) (by simp [marks]) (IM_END_ne_nil model)
      have hs : serialize_to_gpt (m :: ms) model
          = IM_START model ++ (m.role.text ++ (IM_SEP model ++ (m.content ++
              (IM_END model ++ (MSG_SEP model ++ serialize_to_gpt ms model))))) := by
        rw [serialize_cons]
        unfold renderMessage
        simp [List.append_assoc]
      rw [parseMsgsGo, if_neg (hs ▸ serialize_cons_ne_trailing model m ms), hs,
        dropStart_append]
      simp only [Option.some_bind]
      rw [splitFirst_append _ _ (noBorder_IM_SEP model) hRole]
      simp only [Option.some_bind]
      rw [splitFirst_append _ _ (noBorder_IM_END model) hContent]
      simp only [Option.some_bind]
      rw [dropStart_append]
      simp only [Option.some_bind]
      rw [ih fuel hfuel (fun x hx => hclean x (by simp [hx]))]
      rw [Option.map_some', List.map_cons]

/-- Claim C7: for every model and every message list whose role and content
strings contain none of the model's four (nonempty) markers, the serialized
text is `<start><role><sep><content><end>` for each message in order, joined
by the model's message-separator, followed by a trailing
`<start>assistant<sep>`; and splitting this rendered text on the known
markers reconstructs the original role/content pairs in order. -/
theorem claim_C7 (model : Model) (ms : List Message)
    (hclean : ∀ m ∈ ms, NoMarkIn model m.role.text ∧ NoMarkIn model m.content) :
    serialize_to_gpt ms model
      = joinSep (MSG_SEP model) (ms.map (fun m =>
          IM_START model ++ m.role.text ++ IM_SEP model ++ m.content ++ IM_END model)
          ++ [IM_START model ++ "assistant".data ++ IM_SEP model]) ∧
    parseMessages model (serialize_to_gpt ms model)
      = some (ms.map fun m => (m.role.text, m.content)) := by
  refine ⟨rfl, ?_⟩
  unfold parseMessages
  exact parseMsgsGo_serialize model ms _
    (by have := length_le_serialize model ms; omega) hclean

/-- Witness for C7: a concrete two-message conversation for gpt-4. -/
theorem claim_C7_witness :
    serialize_to_gpt [⟨Role.system, "Be nice.".data⟩, ⟨Role.user, "Hi".data⟩] Model.gpt4
      = joinSep (MSG_SEP Model.gpt4)
          (([⟨Role.system, "Be nice.".data⟩, ⟨Role.user, "Hi".data⟩] :
              List Message).map (fun m =>
            IM_START Model.gpt4 ++ m.role.text ++ IM_SEP Model.gpt4 ++ m.content
              ++ IM_END Model.gpt4)
          ++ [IM_START Model.gpt4 ++ "assistant".data ++ IM_SEP Model.gpt4]) ∧
    parseMessages Model.gpt4
        (serialize_to_gpt [⟨Role.system, "Be nice.".data⟩, ⟨Role.user, "Hi".data⟩]
          Model.gpt4)
      = some [(Role.system.text, "Be nice.".data), (Role.user.text, "Hi".data)] :=
  claim_C7 Model.gpt4 [⟨Role.system, "Be nice.".data⟩, ⟨Role.user, "Hi".data⟩]
    (by decide)

/-! JSON values and a model of `json.loads`, as used by `gpt.py`. -/

/-- JSON values as Python's `json` module produces them, restricted to the
forms the chat-completions wire protocol uses. -/
inductive Json where
  | null
  | bool (b : Bool)
  | num (n : Int)
  | str (s : Chars)
  | arr (elems : List Json)
  | obj (fields : List (Chars × Json))

/-- JSON whitespace characters. -/
def isWsChar (c : Char) : Bool := c = ' ' || c = '\t' || c = '\n' || c = '\r'

/-- Skip leading JSON whitespace. -/
def skipWs (l : Chars) : Chars := l.dropWhile isWsChar

/-- Single-character JSON string escapes (`\uXXXX` is not modelled). -/
def escChar : Char → Option Char
  | 'n' => some '\n'
  | 't' => some '\t'
  | 'r' => some '\r'
  | 'b' => some '\x08'
  | 'f' => some '\x0C'
  | '"' => some '"'
  | '\\' => some '\\'
  | '/' => some '/'
  | _ => none

/-- Parse the body of a JSON string after its opening quote, returning the
decoded content and the input following the closing quote. -/
def parseStringBody : Chars → Option (Chars × Chars)
  | [] => none
  | '"' :: rest => some ([], rest)
  | '\\' :: rest =>
    match rest with
    | [] => none
    | e :: rest' =>
      match escChar e with
      | none => none
      | some c =>
        match parseStringBody rest' with
        | some (s, r) => some (c :: s, r)
        | none => none
  | c :: rest =>
    if c.toNat < 32 then none
    else
      match parseStringBody rest with
      | some (s, r) => some (c :: s, r)
      | none => none

/-- Numeric value of a digit string. -/
def digitsVal (l : Chars) : Nat := l.foldl (fun n c => n * 10 + (c.toNat - 48)) 0

/-- Parse a JSON integer (floats are not modelled; no claim uses numbers). -/
def parseNumber (l : Chars) : Option (Json × Chars) :=
  let p := match l with
    | '-' :: rest => (true, rest)
    | _ => (false, l)
  let ds := p.2.takeWhile Char.isDigit
  let rest := p.2.dropWhile Char.isDigit
  if ds = [] then none
  else
    match rest with
    | '.' :: _ => none
    | 'e' :: _ => none
    | 'E' :: _ => none
    | _ =>
      if ds.head? = some '0' ∧ 1 < ds.length then none
      else some (.num (if p.1 then -(digitsVal ds : Int) else (digitsVal ds : Int)), rest)

/-- Insert a key into an association list the way Python dicts do: replace
the value in place when the key exists, else append. -/
def upsert (fs : List (Chars × Json)) (k : Chars) (v : Json) : List (Chars × Json) :=
  match fs with
  | [] => [(k, v)]
  | (k', v') :: rest => if k' == k then (k', v) :: rest else (k', v') :: upsert rest k v

/-- Build the dict for an object literal, later duplicates overriding
earlier values as `json.loads` does. -/
def objFromFields (fs : List (Chars × Json)) : List (Chars × Json) :=
  fs.foldl (fun acc p => upsert acc p.1 p.2) []

mutual

/-- Fueled JSON value parser. -/
def parseValue : Nat → Chars → Option (Json × Chars)
  | 0, _ => none
  | fuel+1, l =>
    match skipWs l with
    | 'n' :: 'u' :: 'l' :: 'l' :: r => some (.null, r)
    | 't' :: 'r' :: 'u' :: 'e' :: r => some (.bool true, r)
    | 'f' :: 'a' :: 'l' :: 's' :: 'e' :: r => some (.bool false, r)
    | '"' :: r =>
      match parseStringBody r with
      | some (s, r') => some (.str s, r')
      | none => none
    | '[' :: r =>
      match skipWs r with
      | ']' :: r' => some (.arr [], r')
      | r1 =>
        match parseElems fuel r1 with
        | some (xs, r') => some (.arr xs, r')
        | none => none
    | '\x7b' :: r =>
      match skipWs r with
      | '\x7d' :: r' => some (.obj [], r')
      | r1 =>
        match parseFields fuel r1 with
        | some (fs, r') => some (.obj (objFromFields fs), r')
        | none => none
    | r => parseNumber r

/-- Fueled parser for the comma-separated elements of a nonempty array. -/
def parseElems : Nat → Chars → Option (List Json × Chars)
  | 0, _ => none
  | fuel+1, l =>
    match parseValue fuel l with
    | none => none
    | some (v, r) =>
      match skipWs r with
      | ',' :: r' =>
        match parseElems fuel r' with
        | some (xs, r'') => some (v :: xs, r'')
        | none => none
      | ']' :: r' => some ([v], r')
      | _ => none

/-- Fueled parser for the comma-separated members of a nonempty object. -/
def parseFields : Nat → Chars → Option (List (Chars × Json) × Chars)
  | 0, _ => none
  | fuel+1, l =>
    match skipWs l with
    | '"' :: r =>
      match parseStringBody r with
      | none => none
      | some (k, r1) =>
        match skipWs r1 with
        | ':' :: r2 =>
          match parseValue fuel r2 with
          | none => none
          | some (v, r3) =>
            match skipWs r3 with
            | ',' :: r4 =>
              match parseFields fuel r4 with
              | some (fs, r5) => some ((k, v) :: fs, r5)
              | none => none
            | '\x7d' :: r4 => some ([(k, v)], r4)
            | _ => none
        | _ => none
    | _ => none

end

/-- Model of `json.loads`: parse one JSON document, rejecting trailing
junk. The fuel is generous: parsing consumes at least one character for
every two fuel steps. -/
def loads (l : Chars) : Option Json :=
  match parseValue (2 * l.length + 2) l with
  | some (v, rest) => if skipWs rest = [] then some v else none
  | none => none

/-- Key lookup in an object's field list. -/
def jlookup (fs : List (Chars × Json)) (k : Chars) : Option Json :=
  match fs.find? (fun p => p.1 == k) with
  | some p => some p.2
  | none => none

/-- Python `value[key]` for a string key: succeeds only on a dict holding
the key; anything else raises (modelled as `none`). -/
def getItem : Json → Chars → Option Json
  | .obj fs, k => jlookup fs k
  | _, _ => none

/-- Python `value[i]` for an integer index: succeeds only on a list long
enough; anything else raises (modelled as `none`). -/
def getIndex : Json → Nat → Option Json
  | .arr xs, i => xs[i]?
  | _, _ => none

/-- Python `value == "k"` for a JSON value: true exactly on that string. -/
def isStrEq : Json → Chars → Bool
  | .str t, s => t == s
  | _, _ => false

/-- Python `k in t` for strings: substring containment. -/
def containsSeq (k : Chars) : Chars → Bool
  | [] => k.isEmpty
  | c :: ts => k.isPrefixOf (c :: ts) || containsSeq k ts

/-- Python `k in v` for a string `k` and JSON value `v`: key membership in
a dict, substring test in a string, element equality in a list, and a
TypeError (`none`) otherwise. -/
def inJson (k : Chars) : Json → Option Bool
  | .obj fs => some (fs.any (fun p => p.1 == k))
  | .str t => some (containsSeq k t)
  | .arr xs => some (xs.any (fun v => isStrEq v k))
  | _ => none

/-! The streaming line parser of `stream` in `gpt.py` (lines 71-103). -/

/-- The compiled regex `^data: (.*)(?:\r\n|\r|\n)$` applied with `re.match`:
the line must start with `data: ` and end with a newline; the greedy `.*`
(which matches any character except `\n`) captures everything after the
prefix and before the final newline character. -/
def match_data (line : Chars) : Option Chars :=
  if ("data: ".data).isPrefixOf line then
    match (line.drop 6).getLast? with
    | some c =>
      if (c = '\n' ∨ c = '\r') ∧ '\n' ∉ (line.drop 6).dropLast then
        some ((line.drop 6).dropLast)
      else none
    | none => none
  else none

/-- The compiled regex `^(?:\r\n|\r|\n)$` applied with `re.match`: the line
is exactly one newline sequence. -/
def match_empty_line (line : Chars) : Bool :=
  line == "\r\n".data || line == "\r".data || line == "\n".data

/-- Processing of a captured data payload at a blank line in `stream`
(gpt.py lines 94-103): `loads(data)`, then `body["choices"][0]["delta"]`,
then the `"content" not in delta` test. `none` means an exception
propagates; `some none` means no fragment; `some (some c)` yields `c`. -/
def processPayload (data : Chars) : Option (Option Json) :=
  match loads data with
  | none => none
  | some body =>
    match getItem body "choices".data with
    | none => none
    | some choices =>
      match getIndex choices 0 with
      | none => none
      | some c0 =>
        match getItem c0 "delta".data with
        | none => none
        | some delta =>
          match inJson "content".data delta with
          | none => none
          | some false => some none
          | some true =>
            match getItem delta "content".data with
            | some c => some (some c)
            | none => none

/-- Outcome of one iteration of the `while True` read loop in `stream`. -/
inductive StepResult where
  | cont (data : Chars)
  | yieldFrag (frag : Json) (data : Chars)
  | done
  | raised

/-- One iteration of the read loop in `stream` (gpt.py lines 75-103),
acting on the held `data` buffer and the line just read. -/
def streamStep (data : Chars) (line : Chars) : StepResult :=
  if data = [] then
    match match_data line with
    | some payload => .cont payload
    | none => .cont []
  else if ¬ match_empty_line line then .cont []
  else if data = "[DONE]".data then .done
  else
    match processPayload data with
    | none => .raised
    | some none => .cont []
    | some (some c) => .yieldFrag c []

/-- Observable result of running the read loop against a finite prefix of
the response body's lines: the loop broke out (`finished`), ran out of the
given lines with the loop still going (`outOfInput`), or an exception
escaped (`raised`); each records the fragments yielded so far. -/
inductive RunOutcome where
  | finished (frags : List Json)
  | outOfInput (frags : List Json) (data : Chars)
  | raised (frags : List Json)

/-- Record one more yielded fragment in front of an outcome. -/
def RunOutcome.consFrag (f : Json) : RunOutcome → RunOutcome
  | .finished fs => .finished (f :: fs)
  | .outOfInput fs d => .outOfInput (f :: fs) d
  | .raised fs => .raised (f :: fs)

/-- Run the read loop of `stream` over a list of `readline` results,
starting from a held `data` buffer. -/
def streamRun : List Chars → Chars → RunOutcome
  | [], data => .outOfInput [] data
  | line :: rest, data =>
    match streamStep data line with
    | .cont d => streamRun rest d
    | .done => .finished []
    | .raised => .raised []
    | .yieldFrag f d => (streamRun rest d).consFrag f

lemma streamRun_cons (line : Chars) (rest : List Chars) (data : Chars) :
    streamRun (line :: rest) data =
      match streamStep data line with
      | .cont d => streamRun rest d
      | .done => .finished []
      | .raised => .raised []
      | .yieldFrag f d => (streamRun rest d).consFrag f := rfl

/-- Claim C1: on a response body consisting exactly of the four lines
`data: \x7b"choices":[\x7b"delta":\x7b"content":"Hi"\x7d\x7d]\x7d`, a blank
line, `data: [DONE]`, and a blank line, the stream loop yields exactly the
one fragment "Hi" and then terminates. -/
theorem claim_C1 :
    streamRun
      ["data: \x7b\"choices\":[\x7b\"delta\":\x7b\"content\":\"Hi\"\x7d\x7d]\x7d\n".data,
        "\n".data, "data: [DONE]\n".data, "\n".data] []
      = .finished [.str "Hi".data] := by rfl

/-- Claim C2: in the stream line parser, a non-blank line that is not a
`data: ` line never raises: with no payload held it is ignored (the loop
just continues with the buffer still empty), and with a payload held any
non-blank line discards the payload without yielding and resumes scanning
with an empty buffer. -/
theorem claim_C2 :
    (∀ line : Chars, match_data line = none → match_empty_line line = false →
      streamStep [] line = .cont []) ∧
    (∀ data line : Chars, data ≠ [] → match_empty_line line = false →
      streamStep data line = .cont []) := by
  constructor
  · intro line hmd _
    rw [streamStep, if_pos rfl, hmd]
  · intro data line hd hel
    rw [streamStep, if_neg hd, if_pos (by rw [hel]; decide)]

/-- Witness for C2: the stray line `noise` (with no payload held, and with
the payload `x` held) is swallowed without yielding or raising. -/
theorem claim_C2_witness :
    streamStep [] "noise\n".data = .cont [] ∧
    streamStep "x".data "noise\n".data = .cont [] :=
  ⟨claim_C2.1 "noise\n".data rfl rfl,
    claim_C2.2 "x".data "noise\n".data (by decide) rfl⟩

/-- Claim C10: when every further `readline` returns the empty string (the
body is exhausted before a terminating event was seen), the read loop keeps
running — for any number of further reads and any held buffer it yields no
fragment, does not finish, and does not raise. -/
theorem claim_C10 (n : Nat) (data : Chars) :
    ∃ d, streamRun (List.replicate n []) data = .outOfInput [] d := by
  induction n generalizing data with
  | zero => exact ⟨data, rfl⟩
  | succ n ih =>
    rw [List.replicate_succ, streamRun_cons]
    have hstep : streamStep data [] = .cont [] := by
      rw [streamStep]
      by_cases h : data = []
      · rw [if_pos h]; rfl
      · rw [if_neg h, if_pos (by decide)]
    simp only [hstep]
    exact ih []

lemma match_data_line {p : Chars} (hn : '\n' ∉ p) :
    match_data ("data: ".data ++ (p ++ "\n".data)) = some p := by
  have hdrop : ("data: ".data ++ (p ++ "\n".data)).drop 6 = p ++ ['\n'] :=
    List.drop_left "data: ".data (p ++ "\n".data)
  rw [match_data, if_pos (List.isPrefixOf_iff_prefix.mpr (List.prefix_append _ _)), hdrop]
  simp only [List.getLast?_concat, List.dropLast_concat]
  rw [if_pos ⟨Or.inl trivial, hn⟩]

/-- Claim C8: a streaming event whose parsed JSON payload's
`choices[0].delta` carries no `content` key produces no fragment, and the
loop continues with the remaining lines rather than terminating. -/
theorem claim_C8 (payload : Chars) (rest : List Chars)
    (hp : processPayload payload = some none) (hn : '\n' ∉ payload) :
    streamRun (("data: ".data ++ (payload ++ "\n".data)) :: "\n".data :: rest) []
      = streamRun rest [] := by
  have hne : payload ≠ [] := by
    intro h
    rw [h, show processPayload [] = (none : Option (Option Json)) from rfl] at hp
    exact Option.noConfusion hp
  have hdone : payload ≠ "[DONE]".data := by
    intro h
    rw [h, show processPayload "[DONE]".data = (none : Option (Option Json)) from rfl] at hp
    exact Option.noConfusion hp
  have h1 : streamStep [] ("data: ".data ++ (payload ++ "\n".data)) = .cont payload := by
    rw [streamStep, if_pos rfl, match_data_line hn]
  have h2 : streamStep payload "\n".data = .cont [] := by
    rw [streamStep, if_neg hne, if_neg (fun hc => hc rfl), if_neg hdone, hp]
  rw [streamRun_cons]
  simp only [h1]
  rw [streamRun_cons]
  simp only [h2]

/-- Witness for C8: a role-only delta event followed by nothing further. -/
theorem claim_C8_witness :
    streamRun
      (("data: ".data
          ++ ("\x7b\"choices\":[\x7b\"delta\":\x7b\"role\":\"assistant\"\x7d\x7d]\x7d".data
            ++ "\n".data)) :: "\n".data :: []) []
      = streamRun [] [] :=
  claim_C8 "\x7b\"choices\":[\x7b\"delta\":\x7b\"role\":\"assistant\"\x7d\x7d]\x7d".data
    [] rfl (by decide)

/-! The non-streaming response path of `answer` in `gpt.py` (lines 150-159). -/

/-- Extraction of the answer from a parsed response body in `answer`:
`choices = body["choices"][0]`, raise `OverflowError` when
`choice["finish_reason"] == "length"`, else return
`choice["message"]["content"]`. `none` models a propagating lookup error;
`some (.error ())` the `OverflowError`; `some (.ok c)` the returned content. -/
def answer_from_body (body : Json) : Option (Except Unit Json) :=
  (getItem body "choices".data).bind fun choices =>
  (getIndex choices 0).bind fun choice =>
  (getItem choice "finish_reason".data).bind fun fr =>
  if isStrEq fr "length".data then some (.error ())
  else
    (getItem choice "message".data).bind fun msg =>
    (getItem msg "content".data).bind fun content =>
    some (.ok content)

lemma answer_from_body_ok (body choices choice fr msg content : Json)
    (h1 : getItem body "choices".data = some choices)
    (h2 : getIndex choices 0 = some choice)
    (h3 : getItem choice "finish_reason".data = some fr)
    (hfr : isStrEq fr "length".data = false)
    (hm : getItem choice "message".data = some msg)
    (hc : getItem msg "content".data = some content) :
    answer_from_body body = some (.ok content) := by
  simp only [answer_from_body, h1, h2, h3, hm, hc, Option.some_bind,
    if_neg (hfr ▸ Bool.false_ne_true : ¬ isStrEq fr "length".data = true)]

/-- Claim C3: `answer` raises the truncation (`OverflowError`) error exactly
when the parsed response's `choices[0].finish_reason` equals `"length"`, and
otherwise returns `choices[0].message.content` unchanged. -/
theorem claim_C3 (body choices choice fr : Json)
    (h1 : getItem body "choices".data = some choices)
    (h2 : getIndex choices 0 = some choice)
    (h3 : getItem choice "finish_reason".data = some fr) :
    (answer_from_body body = some (.error ()) ↔ isStrEq fr "length".data = true) ∧
    (∀ msg content, isStrEq fr "length".data = false →
      getItem choice "message".data = some msg →
      getItem msg "content".data = some content →
      answer_from_body body = some (.ok content)) := by
  constructor
  · constructor
    · intro he
      by_contra hfr
      simp only [answer_from_body, h1, h2, h3, Option.some_bind, if_neg hfr] at he
      rcases hmsg : getItem choice "message".data with _ | msg
      · simp only [hmsg, Option.none_bind] at he
        exact Option.noConfusion he
      · simp only [hmsg, Option.some_bind] at he
        rcases hcon : getItem msg "content".data with _ | content
        · simp only [hcon, Option.none_bind] at he
          exact Option.noConfusion he
        · simp only [hcon, Option.some_bind] at he
          exact Except.noConfusion (Option.some.inj he)
    · intro hfr
      simp only [answer_from_body, h1, h2, h3, Option.some_bind, if_pos hfr]
  · intro msg content hfr hm hc
    exact answer_from_body_ok body choices choice fr msg content h1 h2 h3 hfr hm hc

/-- Witness for C3: a truncated response raises the truncation error. -/
theorem claim_C3_witness :
    answer_from_body
      (.obj [("choices".data,
        .arr [.obj [("finish_reason".data, .str "length".data),
          ("message".data, .obj [("content".data, .str "partial".data)])]])])
      = some (.error ()) :=
  ((claim_C3
      (.obj [("choices".data,
        .arr [.obj [("finish_reason".data, .str "length".data),
          ("message".data, .obj [("content".data, .str "partial".data)])]])])
      (.arr [.obj [("finish_reason".data, .str "length".data),
        ("message".data, .obj [("content".data, .str "partial".data)])]])
      (.obj [("finish_reason".data, .str "length".data),
        ("message".data, .obj [("content".data, .str "partial".data)])])
      (.str "length".data) rfl rfl rfl).1).mpr rfl

/-! The function wrapper of `wrapper.py`. -/

/-- Python `text.split('\n')`. -/
def splitNl : Chars → List Chars
  | [] => [[]]
  | c :: rest =>
    if c = '\n' then [] :: splitNl rest
    else
      match splitNl rest with
      | l :: ls => (c :: l) :: ls
      | [] => [[c]]

/-- The `[ \t]` class used by `textwrap.dedent`'s regexes. -/
def isIndentChar (c : Char) : Bool := c = ' ' || c = '\t'

/-- Longest common prefix of two strings, the net effect of `dedent`'s
margin-narrowing loop. -/
def lcp : Chars → Chars → Chars
  | a :: as, b :: bs => if a = b then a :: lcp as bs else []
  | _, _ => []

/-- `textwrap.dedent`: blank out whitespace-only lines, compute the common
leading `[ \t]` margin of the remaining nonempty lines, and strip that
margin from the start of every line carrying it. -/
def dedent (text : Chars) : Chars :=
  let lines := (splitNl text).map fun l =>
    if !l.isEmpty && l.all isIndentChar then [] else l
  let indents := (lines.filter fun l => !l.isEmpty).map fun l => l.takeWhile isIndentChar
  match indents with
  | [] => joinSep "\n".data lines
  | i0 :: rest =>
    let margin := rest.foldl lcp i0
    joinSep "\n".data (lines.map fun l =>
      if margin.isPrefixOf l then l.drop margin.length else l)

/-- The characters Python's default `str.strip` removes. -/
def isPyWs (c : Char) : Bool :=
  c = ' ' || c = '\t' || c = '\n' || c = '\r' || c = '\x0B' || c = '\x0C'

/-- Python `s.strip()`. -/
def pyStrip (s : Chars) : Chars :=
  ((s.dropWhile isPyWs).reverse.dropWhile isPyWs).reverse

/-- Python `s.lower()` (ASCII case mapping, which covers every string the
claims exercise). -/
def pyLower (s : Chars) : Chars := s.map Char.toLower

/-- The declared return annotation of the wrapped function, as
`create_generic_wrapper` distinguishes it: `str`, `Iterator[str]`, `bool`,
a missing annotation (`Signature.empty`), or anything else. -/
inductive RetAnn where
  | str
  | iterStr
  | bool
  | empty
  | other
deriving DecidableEq

/-- Which engine callable `create_generic_wrapper` binds: `answer`,
`stream`, or the boolean-interpreting lambda around `answer`. -/
inductive Engine where
  | answer
  | stream
  | boolAnswer
deriving DecidableEq

/-- The two `ValueError`s `create_generic_wrapper` raises at wrap time. -/
inductive WrapError where
  | missingDocstring
  | unsupportedReturnType
deriving DecidableEq

/-- The inspectable shape of the Python callable handed to
`create_generic_wrapper`: its `__doc__` and declared return annotation. -/
structure PyFunc where
  doc : Option Chars
  retAnn : RetAnn

/-- `MAX_TOKENS` table from `wrapper.py`. -/
def MAX_TOKENS : Model → Nat
  | .gpt35turbo => 4096
  | .gpt4 => 8192

/-- The engine selection chain (`if return_annotation is str: ...`) of
`create_generic_wrapper`; `none` is the unsupported-return-type case. -/
def engineOf : RetAnn → Option Engine
  | .str => some .answer
  | .iterStr => some .stream
  | .bool => some .boolAnswer
  | .empty => none
  | .other => none

/-- The instruction prompt built by `create_generic_wrapper`: the fixed
preamble, the dedented and stripped docstring, and the mode suffix. -/
def mkInstructions (fdoc : Chars) (ret : RetAnn) : Chars :=
  "You should answer to inputs according to the following specification:\n\n".data
    ++ pyStrip (dedent fdoc)
    ++ (match ret with
      | .bool =>
        ("\n\nAnswer with either true or false without including any other text. "
          ++ "If no definitive answer can be given, answer false.").data
      | _ => "\n\nAnswer with only what was requested without including any other text.".data)

/-- The instruction message's role choice in `create_generic_wrapper`:
`user` for gpt-3.5-turbo, `system` otherwise. -/
def systemRoleFor : Model → Role
  | .gpt35turbo => .user
  | .gpt4 => .system

/-- The wrap-time state captured by the closure `create_generic_wrapper`
returns. -/
structure Wrapped where
  engine : Engine
  instructions : Chars
  systemRole : Role
  maxTokens : Nat
  model : Model
  temperature : Int

/-- `create_generic_wrapper` from `wrapper.py`: reject a callable whose
`__doc__` is `None`, select the engine from the return annotation, build
the instructions, pick the instruction role, and resolve the token budget
(`int(MAX_TOKENS[model] * 0.875)`, which equals `MAX_TOKENS[model] * 7 / 8`
exactly since both table values are multiples of 8). -/
def create_generic_wrapper (f : PyFunc) (model : Model) (temperature : Int)
    (max_tokens : Option Nat) : Except WrapError Wrapped :=
  match f.doc with
  | none => .error .missingDocstring
  | some fdoc =>
    match engineOf f.retAnn with
    | none => .error .unsupportedReturnType
    | some eng =>
      .ok { engine := eng
            instructions := mkInstructions fdoc f.retAnn
            systemRole := systemRoleFor model
            maxTokens := max_tokens.getD (MAX_TOKENS model * 7 / 8)
            model := model
            temperature := temperature }

/-- The `stop` argument type `str | list[str]` of the engines. -/
inductive StopParam where
  | one (s : Chars)
  | many (ss : List Chars)
deriving DecidableEq

/-- The JSON request body (`requestArguments`) built by `answer` and
`stream` in `gpt.py`: the `stream` and `stop` keys are present only when
set. -/
structure RequestBody where
  model : Model
  messages : List Message
  temperature : Int
  streamFlag : Option Bool
  stop : Option StopParam

/-- The `requestArguments` dict built by `answer` (no `stream` key; `stop`
only when provided). -/
def answerRequestArguments (model : Model) (messages : List Message)
    (temperature : Int) (stop : Option StopParam) : RequestBody :=
  { model := model, messages := messages, temperature := temperature,
    streamFlag := none, stop := stop }

/-- The `requestArguments` dict built by `stream` (always `stream: true`;
`stop` only when provided). -/
def streamRequestArguments (model : Model) (messages : List Message)
    (temperature : Int) (stop : Option StopParam) : RequestBody :=
  { model := model, messages := messages, temperature := temperature,
    streamFlag := some true, stop := stop }

/-- The two-message list built per call inside `wrapper`. -/
def wrapperMessages (w : Wrapped) (message : Chars) : List Message :=
  [⟨w.systemRole, w.instructions⟩, ⟨Role.user, message⟩]

/-- The per-call `ValueError` of `wrapper`, carrying the computed token
count and the limit. -/
inductive CallError where
  | budgetExceeded (count limit : Nat)
deriving DecidableEq

/-- What a successful `wrapper` call hands to the network layer: which
engine ran, and the request body it built. -/
structure Dispatched where
  engine : Engine
  request : RequestBody

/-- The per-call closure `wrapper` from `wrapper.py`, composed with the
request-building part of the selected engine: build the two messages,
count tokens, fail when the count exceeds the budget, otherwise dispatch
to `answer` (no extra arguments), `stream` (no extra arguments), or the
boolean lambda (`answer` with `stop=["true", "false"]`). -/
def wrapper (w : Wrapped) (encodeFn : Chars → List Nat) (message : Chars) :
    Except CallError Dispatched :=
  if get_token_count encodeFn (wrapperMessages w message) w.model > w.maxTokens then
    .error (.budgetExceeded
      (get_token_count encodeFn (wrapperMessages w message) w.model) w.maxTokens)
  else
    .ok ⟨w.engine,
      match w.engine with
      | .answer =>
        answerRequestArguments w.model (wrapperMessages w message) w.temperature none
      | .stream =>
        streamRequestArguments w.model (wrapperMessages w message) w.temperature none
      | .boolAnswer =>
        answerRequestArguments w.model (wrapperMessages w message) w.temperature
          (some (.many ["true".data, "false".data]))⟩

/-- The boolean interpretation in the lambda of `create_generic_wrapper`:
`"true" in answer(...).lower()`. -/
def boolResult (answerText : Chars) : Bool :=
  containsSeq "true".data (pyLower answerText)

lemma wrapper_dispatch_ok (w : Wrapped) (encodeFn : Chars → List Nat) (message : Chars)
    (hbudget : ¬ get_token_count encodeFn (wrapperMessages w message) w.model
      > w.maxTokens) :
    wrapper w encodeFn message = .ok ⟨w.engine,
      match w.engine with
      | .answer =>
        answerRequestArguments w.model (wrapperMessages w message) w.temperature none
      | .stream =>
        streamRequestArguments w.model (wrapperMessages w message) w.temperature none
      | .boolAnswer =>
        answerRequestArguments w.model (wrapperMessages w message) w.temperature
          (some (.many ["true".data, "false".data]))⟩ := by
  rw [wrapper, if_neg hbudget]

/-- Claim C5: a call fails with the budget error — carrying the computed
count and the limit — exactly when the two-message prompt's token count
strictly exceeds the budget; a count equal to the budget proceeds to the
selected engine. -/
theorem claim_C5 (w : Wrapped) (encodeFn : Chars → List Nat) (message : Chars) :
    (get_token_count encodeFn (wrapperMessages w message) w.model > w.maxTokens →
      wrapper w encodeFn message = .error (.budgetExceeded
        (get_token_count encodeFn (wrapperMessages w message) w.model) w.maxTokens)) ∧
    (get_token_count encodeFn (wrapperMessages w message) w.model = w.maxTokens →
      ∃ d, wrapper w encodeFn message = .ok d ∧ d.engine = w.engine) := by
  constructor
  · intro h
    rw [wrapper, if_pos h]
  · intro h
    rw [wrapper, if_neg (by omega)]
    exact ⟨_, rfl, rfl⟩

/-- A concrete wrap result with a budget of 10 tokens, for the C5 witness. -/
def budgetTenW : Wrapped :=
  ⟨Engine.answer, "spec".data, Role.system, 10, Model.gpt4, 0⟩

/-- Witness for C5: with an encoder producing 11 tokens the call reports
`(11, 10)`; with one producing exactly 10 tokens it proceeds. -/
theorem claim_C5_witness :
    wrapper budgetTenW (fun _ => List.replicate 11 0) "hi".data
      = .error (.budgetExceeded 11 10) ∧
    (wrapper budgetTenW (fun _ => List.replicate 10 0) "hi".data).isOk = true := by
  constructor
  · exact (claim_C5 budgetTenW (fun _ => List.replicate 11 0) "hi".data).1 (by decide)
  · obtain ⟨d, hd, _⟩ :=
      (claim_C5 budgetTenW (fun _ => List.replicate 10 0) "hi".data).2 (by decide)
    rw [hd]
    rfl

/-- Claim C6: a call of a function wrapped with declared return type `str`
dispatches to `answer` with exactly the two messages — the instruction
message then the user message holding the call's input — in a request body
with no `stream` key and no `stop` key, and the answer path returns the
response's `choices[0].message.content` unmodified. -/
theorem claim_C6 (f : PyFunc) (model : Model) (temperature : Int)
    (max_tokens : Option Nat) (fdoc : Chars)
    (hdoc : f.doc = some fdoc) (hret : f.retAnn = .str)
    (w : Wrapped) (hw : create_generic_wrapper f model temperature max_tokens = .ok w)
    (encodeFn : Chars → List Nat) (message : Chars)
    (hbudget : ¬ get_token_count encodeFn (wrapperMessages w message) w.model
      > w.maxTokens) :
    wrapper w encodeFn message = .ok ⟨.answer,
      { model := w.model
        messages := [⟨w.systemRole, w.instructions⟩, ⟨Role.user, message⟩]
        temperature := w.temperature
        streamFlag := none
        stop := none }⟩ ∧
    (∀ body choices choice fr msg content,
      getItem body "choices".data = some choices →
      getIndex choices 0 = some choice →
      getItem choice "finish_reason".data = some fr →
      isStrEq fr "length".data = false →
      getItem choice "message".data = some msg →
      getItem msg "content".data = some content →
      answer_from_body body = some (.ok content)) := by
  simp only [create_generic_wrapper, hdoc, hret, engineOf] at hw
  rw [Except.ok.injEq] at hw
  subst hw
  constructor
  · rw [wrapper_dispatch_ok _ _ _ hbudget]
    rfl
  · intro body choices choice fr msg content h1 h2 h3 hfr hm hc
    exact answer_from_body_ok body choices choice fr msg content h1 h2 h3 hfr hm hc

/-- The function of the C6 witness: return type `str`, docstring
`"Echo positively."`. -/
def echoF : PyFunc := ⟨some "Echo positively.".data, RetAnn.str⟩

/-- The wrap of `echoF` for gpt-4 at temperature 0 with the default budget. -/
def echoW : Wrapped :=
  ⟨Engine.answer,
    ("You should answer to inputs according to the following specification:\n\n"
      ++ "Echo positively."
      ++ "\n\nAnswer with only what was requested without including any other text.").data,
    Role.system, 7168, Model.gpt4, 0⟩

/-- Witness for C6: calling the wrapped echo function with input `hi`. -/
theorem claim_C6_witness :
    wrapper echoW (fun _ => []) "hi".data = .ok ⟨.answer,
      { model := Model.gpt4
        messages := [⟨Role.system, echoW.instructions⟩, ⟨Role.user, "hi".data⟩]
        temperature := 0
        streamFlag := none
        stop := none }⟩ :=
  (claim_C6 echoF Model.gpt4 0 none "Echo positively.".data rfl rfl echoW rfl
    (fun _ => []) "hi".data (by decide)).1

/-- Claim C4: a call of a function wrapped with declared return type `bool`
dispatches to `answer` with `stop=["true", "false"]`, and the wrapped
result is true exactly when the engine's returned text, lowercased,
contains the substring `true`; in particular `True.` gives true,
`No, false.` gives false, and `unsure` gives false. -/
theorem claim_C4 (f : PyFunc) (model : Model) (temperature : Int)
    (max_tokens : Option Nat) (fdoc : Chars)
    (hdoc : f.doc = some fdoc) (hret : f.retAnn = .bool)
    (w : Wrapped) (hw : create_generic_wrapper f model temperature max_tokens = .ok w)
    (encodeFn : Chars → List Nat) (message : Chars) (d : Dispatched)
    (hd : wrapper w encodeFn message = .ok d) :
    d.engine = .boolAnswer ∧
    d.request.stop = some (.many ["true".data, "false".data]) ∧
    (∀ t, boolResult t = containsSeq "true".data (pyLower t)) ∧
    boolResult "True.".data = true ∧
    boolResult "No, false.".data = false ∧
    boolResult "unsure".data = false := by
  simp only [create_generic_wrapper, hdoc, hret, engineOf] at hw
  rw [Except.ok.injEq] at hw
  subst hw
  rw [wrapper] at hd
  split at hd
  · exact Except.noConfusion hd
  · rw [Except.ok.injEq] at hd
    subst hd
    exact ⟨rfl, rfl, fun t => rfl, rfl, rfl, rfl⟩

/-- The function of the C4 witness: return type `bool`. -/
def boolF : PyFunc := ⟨some "Is the input positive?".data, RetAnn.bool⟩

/-- The wrap of `boolF` for gpt-4 at temperature 0 with the default budget. -/
def boolW : Wrapped :=
  ⟨Engine.boolAnswer,
    ("You should answer to inputs according to the following specification:\n\n"
      ++ "Is the input positive?"
      ++ "\n\nAnswer with either true or false without including any other text. "
      ++ "If no definitive answer can be given, answer false.").data,
    Role.system, 7168, Model.gpt4, 0⟩

/-- The dispatch produced by calling the wrapped `boolF` with input `hi`. -/
def boolD : Dispatched :=
  ⟨Engine.boolAnswer,
    answerRequestArguments Model.gpt4 (wrapperMessages boolW "hi".data) 0
      (some (.many ["true".data, "false".data]))⟩

/-- Witness for C4: the boolean wrap passes the stop list and interprets
the three example outputs as the claim states. -/
theorem claim_C4_witness :
    boolD.engine = .boolAnswer ∧
    boolD.request.stop = some (.many ["true".data, "false".data]) ∧
    boolResult "True.".data = true ∧
    boolResult "No, false.".data = false ∧
    boolResult "unsure".data = false := by
  obtain ⟨h1, h2, _, h4, h5, h6⟩ :=
    claim_C4 boolF Model.gpt4 0 none "Is the input positive?".data rfl rfl boolW rfl
      (fun _ => []) "hi".data boolD rfl
  exact ⟨h1, h2, h4, h5, h6⟩

/-- Counterexample for C9: a function whose docstring is present but empty
(so it "does not carry a non-empty docstring") is wrapped successfully —
`create_generic_wrapper` only tests `fdoc is None`, so no
missing-specification error is raised. -/
theorem claim_C9_counterexample :
    ∃ w, create_generic_wrapper ⟨some [], RetAnn.str⟩ Model.gpt4 0 none = .ok w :=
  ⟨_, rfl⟩

/-- Claim C9 (amended): `create_generic_wrapper` fails at wrap time with
the missing-specification error exactly for a function whose docstring is
absent (`None`) — a present but empty docstring is accepted — and with the
unsupported-return-type error for every function with a docstring whose
declared return annotation is not one of `str`, `Iterator[str]`, or `bool`
(including a function with no return annotation at all); a docstring plus a
supported annotation wraps successfully. -/
theorem claim_C9 (f : PyFunc) (model : Model) (temperature : Int)
    (max_tokens : Option Nat) :
    (f.doc = none →
      create_generic_wrapper f model temperature max_tokens
        = .error .missingDocstring) ∧
    (∀ fdoc, f.doc = some fdoc →
      f.retAnn ≠ .str → f.retAnn ≠ .iterStr → f.retAnn ≠ .bool →
      create_generic_wrapper f model temperature max_tokens
        = .error .unsupportedReturnType) ∧
    (∀ fdoc eng, f.doc = some fdoc → engineOf f.retAnn = some eng →
      ∃ w, create_generic_wrapper f model temperature max_tokens = .ok w
        ∧ w.engine = eng) := by
  refine ⟨?_, ?_, ?_⟩
  · intro h
    simp only [create_generic_wrapper, h]
  · intro fdoc h hs hi hb
    have he : engineOf f.retAnn = none := by
      cases hr : f.retAnn
      · exact absurd hr hs
      · exact absurd hr hi
      · exact absurd hr hb
      · rfl
      · rfl
    simp only [create_generic_wrapper, h, he]
  · intro fdoc eng h he
    simp only [create_generic_wrapper, h, he]
    exact ⟨_, rfl, rfl⟩

/-- Witness for C9: a `None` docstring fails, a docstring with a missing
annotation fails, and a docstring with an `Iterator[str]` annotation wraps. -/
theorem claim_C9_witness :
    create_generic_wrapper ⟨none, RetAnn.str⟩ Model.gpt4 0 none
      = .error .missingDocstring ∧
    create_generic_wrapper ⟨some "d".data, RetAnn.empty⟩ Model.gpt4 0 none
      = .error .unsupportedReturnType ∧
    (create_generic_wrapper ⟨some "d".data, RetAnn.iterStr⟩ Model.gpt4 0 none).isOk
      = true := by
  refine ⟨(claim_C9 ⟨none, RetAnn.str⟩ Model.gpt4 0 none).1 rfl,
    (claim_C9 ⟨some "d".data, RetAnn.empty⟩ Model.gpt4 0 none).2.1 "d".data rfl
      (by decide) (by decide) (by decide), ?_⟩
  obtain ⟨w, hw, _⟩ :=
    (claim_C9 ⟨some "d".data, RetAnn.iterStr⟩ Model.gpt4 0 none).2.2 "d".data
      Engine.stream rfl rfl
  rw [hw]
  rfl

end FuncGpt
